import Mathlib

/-! Shallow embedding of the devtrail portfolio backend: the record-retrieval and
validation layer (`RecordsRepository` with its `ExperienceRecords` and
`EducationalRecords` value objects) and the `/api/projects` route handler.

The store (Firestore) is abstracted: a batch fetch is the list of document
snapshots the store returns, and a by-id fetch is a function from ids to an
optional document snapshot.
-/

namespace DevTrail

/-- Leaf value object `Skills`: `{id, name, description, level}`, no behavior. -/
structure Skills where
  id : String
  name : String
  description : String
  level : String
deriving DecidableEq, Repr

/-- Base class `Records`: common fields shared by experience and education
entries (`id`, `startDate`, `endDate`, `description`, `skills`).  Dates are
modelled as abstract instants (`Nat`), the image of a store timestamp under
`toDate ()`. -/
structure Records where
  id : String
  startDate : Nat
  endDate : Nat
  description : String
  skills : List Skills
deriving DecidableEq, Repr

/-- Class `EducationalRecords extends Records` (from `EducationalRecords.ts`):
adds `_name` (the institution name, exposed through the getter `name`) and
`_degree` (exposed through the getter `degree`).  The class has no other
field: in particular its constructor takes no location argument and it
stores no location. -/
structure EducationalRecords extends Records where
  name : String
  degree : String
deriving DecidableEq, Repr

/-- Modelled from the spec: the `ExperienceRecords` class is not under `src/`;
per §2/§3 it extends `Records` with `companyName`, `title` and `location`. -/
structure ExperienceRecords extends Records where
  companyName : String
  title : String
  location : String
deriving DecidableEq, Repr

/-- A raw experience document snapshot as the store returns it, prior to
validation/mapping (fields as in the test fixtures). -/
structure ExperienceDoc where
  id : String
  startDate : Nat
  endDate : Nat
  description : String
  skills : List Skills
  companyName : String
  title : String
  location : String
deriving DecidableEq, Repr

/-- A raw educational document snapshot as the store returns it, prior to
validation/mapping (fields as in the test fixtures). -/
structure EducationalDoc where
  id : String
  startDate : Nat
  endDate : Nat
  description : String
  skills : List Skills
  institutionName : String
  degree : String
  location : String
deriving DecidableEq, Repr

/-- Modelled from the spec: mandatory-field check for an experience document —
`companyName` and `title` (the kind-specific mandatory fields) must be
non-empty. -/
def expDocValid (d : ExperienceDoc) : Bool :=
  d.companyName != "" && d.title != ""

/-- Modelled from the spec: mandatory-field check for an educational document —
`institutionName` and `degree` must be non-empty. -/
def eduDocValid (d : EducationalDoc) : Bool :=
  d.institutionName != "" && d.degree != ""

/-- The validation-error message for an experience document, as locked in by
the test suite. -/
def expMissingMsg (id : String) : String :=
  "Experience record with ID " ++ id ++ " is missing mandatory fields."

/-- The validation-error message for an educational document, as locked in by
the test suite. -/
def eduMissingMsg (id : String) : String :=
  "Educational record with ID " ++ id ++ " is missing mandatory fields."

/-- The precondition-error message for an empty id argument. -/
def invalidIDMsg : String :=
  "Invalid ID provided. ID must be a non-empty string."

/-- Modelled from the spec: mapping of a raw experience document onto the
typed `ExperienceRecords` value object (field-for-field). -/
def experienceRecordOfDoc (d : ExperienceDoc) : ExperienceRecords :=
  { id := d.id
    startDate := d.startDate
    endDate := d.endDate
    description := d.description
    skills := d.skills
    companyName := d.companyName
    title := d.title
    location := d.location }

/-- Modelled from the spec: mapping of a raw educational document onto the
typed `EducationalRecords` value object.  The class constructor (from
`EducationalRecords.ts`) takes `(id, startDate, endDate, description, skills,
name, degree)`, so the `institutionName` of the document becomes `name` and
the `location` of the document has no slot to go to. -/
def educationalRecordOfDoc (d : EducationalDoc) : EducationalRecords :=
  { id := d.id
    startDate := d.startDate
    endDate := d.endDate
    description := d.description
    skills := d.skills
    name := d.institutionName
    degree := d.degree }

/-- Modelled from the spec: `RecordsRepository` construction.  The record-kind
selector is restricted to `{experience, education}`; any other value fails
immediately with the invalid-record-type error. -/
inductive RecordType where
  | experience
  | education
deriving DecidableEq, Repr

/-- Modelled from the spec: the `RecordsRepository` constructor — validates
the record-kind selector string, failing with "Invalid record type provided."
for anything outside `{experience, education}`. -/
def mkRecordsRepository (recordType : String) : Except String RecordType :=
  if recordType = "experience" then .ok .experience
  else if recordType = "education" then .ok .education
  else .error "Invalid record type provided."

/-- Modelled from the spec: `getAllExperienceRecords` — maps each fetched
document into a typed record and fails the whole call, with the message
naming the id of the offending document, as soon as a document is missing its
mandatory fields (all-or-nothing batch mapping). -/
def getAllExperienceRecords :
    List ExperienceDoc → Except String (List ExperienceRecords)
  | [] => .ok []
  | d :: ds =>
    if expDocValid d then
      match getAllExperienceRecords ds with
      | .ok rs => .ok (experienceRecordOfDoc d :: rs)
      | .error e => .error e
    else
      .error (expMissingMsg d.id)

/-- Modelled from the spec: `getAllEducationalRecords`, symmetric to
`getAllExperienceRecords`. -/
def getAllEducationalRecords :
    List EducationalDoc → Except String (List EducationalRecords)
  | [] => .ok []
  | d :: ds =>
    if eduDocValid d then
      match getAllEducationalRecords ds with
      | .ok rs => .ok (educationalRecordOfDoc d :: rs)
      | .error e => .error e
    else
      .error (eduMissingMsg d.id)

/-- Modelled from the spec: `getExperienceRecordByID` — rejects an empty id
before any access to the store (the store argument is not consulted in that
case); a missing document yields the empty-result sentinel `none`; a document
missing mandatory fields rejects with the message naming its id. -/
def getExperienceRecordByID (id : String)
    (store : String → Option ExperienceDoc) :
    Except String (Option ExperienceRecords) :=
  if id = "" then .error invalidIDMsg
  else
    match store id with
    | none => .ok none
    | some d =>
      if expDocValid d then .ok (some (experienceRecordOfDoc d))
      else .error (expMissingMsg d.id)

/-- Modelled from the spec: `getEducationalRecordByID`, symmetric to
`getExperienceRecordByID`. -/
def getEducationalRecordByID (id : String)
    (store : String → Option EducationalDoc) :
    Except String (Option EducationalRecords) :=
  if id = "" then .error invalidIDMsg
  else
    match store id with
    | none => .ok none
    | some d =>
      if eduDocValid d then .ok (some (educationalRecordOfDoc d))
      else .error (eduMissingMsg d.id)

/-!  The `/api/projects` route handler (`src/app/api/projects/route.ts`).

Query parameters are modelled as the ordered list of `(key, value)` pairs of
the search params of the request.  The controller calls are represented by the
outcome constructors: which `ProjectsController` function the handler invokes
and with what argument (the controller itself is an external collaborator).
-/

/-- The outcome of route-handler dispatch: either an immediate 400
response for unrecognized parameters (carrying the status, the body message
and the offending names), or the controller call it delegates to. -/
inductive RouteResult where
  | badRequest (status : Nat) (message : String) (invalid : List String)
  | byName (name : String)
  | byID (id : String)
  | allProjects
deriving DecidableEq, Repr

/-- `searchParams.get(key)`: the value of the first pair with the given key,
or `none` when the key is absent. -/
def searchParamsGet (params : List (String × String)) (key : String) :
    Option String :=
  (params.find? (fun p => p.fst == key)).map Prod.snd

/-- JavaScript truthiness of a `string | null` value: `null` and the empty
string are falsy. -/
def jsTruthy : Option String → Bool
  | none => false
  | some s => s != ""

/-- The 400 body message: the fixed prefix followed by the invalid parameter
names joined with a comma and a space. -/
def invalidQueryMessage (invalid : List String) : String :=
  "Invalid query parameters: " ++ String.intercalate ", " invalid

/-- The `GET` handler of the projects route: collects every parameter key not
in the valid set (`name`, `id`); if any, returns 400 with the message listing them.
Otherwise `name` is read first and, when truthy, dispatched to
`getProjectByName`; else `id`, when truthy, to `getProjectByID`; else
`getAllProjects`. -/
def projectsGET (params : List (String × String)) : RouteResult :=
  let validParams := ["name", "id"]
  let invalidParams :=
    (params.map Prod.fst).filter (fun key => !(validParams.contains key))
  if invalidParams.length > 0 then
    .badRequest 400 (invalidQueryMessage invalidParams) invalidParams
  else
    let name := searchParamsGet params "name"
    if jsTruthy name then .byName (name.getD "")
    else
      let id := searchParamsGet params "id"
      if jsTruthy id then .byID (id.getD "")
      else .allProjects

/-! Concrete fixtures, mirroring the mock documents of the test suite, used to
instantiate the theorems below at explicit inputs. -/

/-- Fixture: a fully valid experience document (id 1). -/
def expDocGood : ExperienceDoc :=
  { id := "1", startDate := 0, endDate := 1
    description := "A description of the experience record."
    skills := [{ id := "1", name := "JavaScript"
                 description := "A programming language.", level := "High" }]
    companyName := "Company Name", title := "Job Title", location := "Location" }

/-- Fixture: an experience document (id 1) with an empty `companyName`. -/
def expDocBad : ExperienceDoc :=
  { expDocGood with companyName := "" }

/-- Fixture: an experience document (id 2) with an empty `companyName`. -/
def expDocBadB : ExperienceDoc :=
  { expDocGood with id := "2", companyName := "" }

/-- Fixture: a valid experience document (id 2). -/
def expDocGoodB : ExperienceDoc :=
  { expDocGood with id := "2" }

/-- Fixture: a fully valid educational document (id 1). -/
def eduDocGood : EducationalDoc :=
  { id := "1", startDate := 0, endDate := 1
    description := "A description of the educational record."
    skills := [{ id := "1", name := "JavaScript"
                 description := "A programming language.", level := "High" }]
    institutionName := "Institution Name", degree := "Degree"
    location := "Location" }

/-- Fixture: an educational document (id 1) with an empty `institutionName`. -/
def eduDocBad : EducationalDoc :=
  { eduDocGood with institutionName := "" }

/-- Fixture: an educational document (id 2) with an empty `institutionName`. -/
def eduDocBadB : EducationalDoc :=
  { eduDocGood with id := "2", institutionName := "" }

/-- Fixture: a valid educational document (id 2). -/
def eduDocGoodB : EducationalDoc :=
  { eduDocGood with id := "2" }

/-- Fixture: an educational document differing from `eduDocGood` only in its
`location`. -/
def eduDocOtherLoc : EducationalDoc :=
  { eduDocGood with location := "Other Location" }

/-! Helper lemmas shared by the claim theorems. -/

/-- On an all-valid batch, `getAllExperienceRecords` succeeds with the
field-for-field mapping of the batch, in order. -/
theorem getAllExperienceRecords_ok (docs : List ExperienceDoc)
    (h : ∀ d ∈ docs, expDocValid d = true) :
    getAllExperienceRecords docs = .ok (docs.map experienceRecordOfDoc) := by
  induction docs with
  | nil => rfl
  | cons d ds ih =>
    have hd : expDocValid d = true := h d (List.mem_cons_self d ds)
    have hds : ∀ x ∈ ds, expDocValid x = true :=
      fun x hx => h x (List.mem_cons_of_mem d hx)
    simp [getAllExperienceRecords, hd, ih hds]

/-- On an all-valid batch, `getAllEducationalRecords` succeeds with the
field-for-field mapping of the batch, in order. -/
theorem getAllEducationalRecords_ok (docs : List EducationalDoc)
    (h : ∀ d ∈ docs, eduDocValid d = true) :
    getAllEducationalRecords docs = .ok (docs.map educationalRecordOfDoc) := by
  induction docs with
  | nil => rfl
  | cons d ds ih =>
    have hd : eduDocValid d = true := h d (List.mem_cons_self d ds)
    have hds : ∀ x ∈ ds, eduDocValid x = true :=
      fun x hx => h x (List.mem_cons_of_mem d hx)
    simp [getAllEducationalRecords, hd, ih hds]

/-- If a batch contains an invalid experience document while every other
document is valid, the whole batch fetch rejects with the message naming the
id of that document. -/
theorem getAllExperienceRecords_invalid (docs : List ExperienceDoc)
    (d : ExperienceDoc) (hmem : d ∈ docs) (hinv : expDocValid d = false)
    (hoth : ∀ e ∈ docs, e ≠ d → expDocValid e = true) :
    getAllExperienceRecords docs = .error (expMissingMsg d.id) := by
  induction docs with
  | nil => cases hmem
  | cons e ds ih =>
    by_cases he : expDocValid e = true
    · have hne : e ≠ d := by
        intro h
        rw [h, hinv] at he
        cases he
      have hd : d ∈ ds := by
        rcases List.mem_cons.mp hmem with h | h
        · exact absurd h.symm hne
        · exact h
      have hrec := ih hd
        (fun x hx hxne => hoth x (List.mem_cons_of_mem e hx) hxne)
      simp [getAllExperienceRecords, he, hrec]
    · have hed : e = d := by
        by_contra hne
        exact he (hoth e (List.mem_cons_self e ds) hne)
      subst hed
      simp [getAllExperienceRecords, he]

/-- If a batch contains an invalid educational document while every other
document is valid, the whole batch fetch rejects with the message naming the
id of that document. -/
theorem getAllEducationalRecords_invalid (docs : List EducationalDoc)
    (d : EducationalDoc) (hmem : d ∈ docs) (hinv : eduDocValid d = false)
    (hoth : ∀ e ∈ docs, e ≠ d → eduDocValid e = true) :
    getAllEducationalRecords docs = .error (eduMissingMsg d.id) := by
  induction docs with
  | nil => cases hmem
  | cons e ds ih =>
    by_cases he : eduDocValid e = true
    · have hne : e ≠ d := by
        intro h
        rw [h, hinv] at he
        cases he
      have hd : d ∈ ds := by
        rcases List.mem_cons.mp hmem with h | h
        · exact absurd h.symm hne
        · exact h
      have hrec := ih hd
        (fun x hx hxne => hoth x (List.mem_cons_of_mem e hx) hxne)
      simp [getAllEducationalRecords, he, hrec]
    · have hed : e = d := by
        by_contra hne
        exact he (hoth e (List.mem_cons_self e ds) hne)
      subst hed
      simp [getAllEducationalRecords, he]

/-! Claim theorems. -/

/-- C1: for every `getAll` call, if one fetched document has an empty
kind-specific mandatory field while every other document in the batch is
valid, the whole call rejects with the error message naming the id of that
document; no partial result is returned. -/
theorem C1_getAll_single_invalid_rejects :
    (∀ (docs : List ExperienceDoc) (d : ExperienceDoc),
      d ∈ docs → expDocValid d = false →
      (∀ e ∈ docs, e ≠ d → expDocValid e = true) →
      getAllExperienceRecords docs = .error (expMissingMsg d.id)) ∧
    (∀ (docs : List EducationalDoc) (d : EducationalDoc),
      d ∈ docs → eduDocValid d = false →
      (∀ e ∈ docs, e ≠ d → eduDocValid e = true) →
      getAllEducationalRecords docs = .error (eduMissingMsg d.id)) :=
  ⟨getAllExperienceRecords_invalid, getAllEducationalRecords_invalid⟩

/-- Witness for C1 at the two-document batches of the test suite: an invalid
first document (empty `companyName` / `institutionName`) next to a valid
second one makes the whole call reject, naming id 1. -/
theorem C1_witness :
    (expDocBad ∈ [expDocBad, expDocGoodB] ∧ expDocValid expDocBad = false ∧
      getAllExperienceRecords [expDocBad, expDocGoodB] =
        .error (expMissingMsg "1")) ∧
    (eduDocBad ∈ [eduDocBad, eduDocGoodB] ∧ eduDocValid eduDocBad = false ∧
      getAllEducationalRecords [eduDocBad, eduDocGoodB] =
        .error (eduMissingMsg "1")) :=
  ⟨⟨by simp, by decide,
    C1_getAll_single_invalid_rejects.1 [expDocBad, expDocGoodB] expDocBad
      (by simp) (by decide) (by decide)⟩,
   ⟨by simp, by decide,
    C1_getAll_single_invalid_rejects.2 [eduDocBad, eduDocGoodB] eduDocBad
      (by simp) (by decide) (by decide)⟩⟩

/-- C2: for every non-empty id, a by-id lookup on a document absent from the
store returns the empty-result sentinel (`none` inside a successful result),
not an error. -/
theorem C2_getByID_missing_returns_null :
    (∀ (id : String) (store : String → Option ExperienceDoc),
      id ≠ "" → store id = none →
      getExperienceRecordByID id store = .ok none) ∧
    (∀ (id : String) (store : String → Option EducationalDoc),
      id ≠ "" → store id = none →
      getEducationalRecordByID id store = .ok none) := by
  constructor
  · intro id store hid hstore
    simp [getExperienceRecordByID, hid, hstore]
  · intro id store hid hstore
    simp [getEducationalRecordByID, hid, hstore]

/-- Witness for C2 at id 3 against an empty store, as in the test suite. -/
theorem C2_witness :
    ("3" : String) ≠ "" ∧
    getExperienceRecordByID "3" (fun _ => none) = .ok none ∧
    getEducationalRecordByID "3" (fun _ => none) = .ok none :=
  ⟨by decide,
   C2_getByID_missing_returns_null.1 "3" (fun _ => none) (by decide) rfl,
   C2_getByID_missing_returns_null.2 "3" (fun _ => none) (by decide) rfl⟩

/-- C3: constructing a `RecordsRepository` with any selector outside
`{experience, education}` fails immediately with the invalid-record-type
error. -/
theorem C3_invalid_record_type (s : String)
    (h1 : s ≠ "experience") (h2 : s ≠ "education") :
    mkRecordsRepository s = .error "Invalid record type provided." := by
  simp [mkRecordsRepository, h1, h2]

/-- Witness for C3 at the selector `Work` used by the test suite. -/
theorem C3_witness :
    ("Work" : String) ≠ "experience" ∧ ("Work" : String) ≠ "education" ∧
    mkRecordsRepository "Work" = .error "Invalid record type provided." :=
  ⟨by decide, by decide, C3_invalid_record_type "Work" (by decide) (by decide)⟩

/-- C4: a by-id lookup with the empty string rejects with the invalid-ID
error, uniformly in the store — the result is the same for every store, so
the store is never consulted. -/
theorem C4_empty_id_rejects (storeE : String → Option ExperienceDoc)
    (storeD : String → Option EducationalDoc) :
    getExperienceRecordByID "" storeE = .error invalidIDMsg ∧
    getEducationalRecordByID "" storeD = .error invalidIDMsg :=
  ⟨rfl, rfl⟩

/-- Witness for C4 at concrete stores. -/
theorem C4_witness :
    getExperienceRecordByID "" (fun _ => some expDocGood) =
      .error invalidIDMsg ∧
    getEducationalRecordByID "" (fun _ => some eduDocGood) =
      .error invalidIDMsg :=
  C4_empty_id_rejects (fun _ => some expDocGood) (fun _ => some eduDocGood)

/-- C5: a by-id lookup on an existing document with an empty kind-specific
mandatory field rejects with the message naming the record kind and the id
of that document. -/
theorem C5_getByID_invalid_doc_rejects :
    (∀ (id : String) (store : String → Option ExperienceDoc)
        (d : ExperienceDoc),
      id ≠ "" → store id = some d → expDocValid d = false →
      getExperienceRecordByID id store = .error (expMissingMsg d.id)) ∧
    (∀ (id : String) (store : String → Option EducationalDoc)
        (d : EducationalDoc),
      id ≠ "" → store id = some d → eduDocValid d = false →
      getEducationalRecordByID id store = .error (eduMissingMsg d.id)) := by
  constructor
  · intro id store d hid hstore hinv
    simp [getExperienceRecordByID, hid, hstore, hinv]
  · intro id store d hid hstore hinv
    simp [getEducationalRecordByID, hid, hstore, hinv]

/-- Witness for C5 at id 2 with stores holding the invalid documents of the
test suite: the messages name the kind and id 2. -/
theorem C5_witness :
    ("2" : String) ≠ "" ∧ expDocValid expDocBadB = false ∧
    eduDocValid eduDocBadB = false ∧
    getExperienceRecordByID "2" (fun _ => some expDocBadB) =
      .error "Experience record with ID 2 is missing mandatory fields." ∧
    getEducationalRecordByID "2" (fun _ => some eduDocBadB) =
      .error "Educational record with ID 2 is missing mandatory fields." :=
  ⟨by decide, by decide, by decide,
   C5_getByID_invalid_doc_rejects.1 "2" (fun _ => some expDocBadB) expDocBadB
     (by decide) rfl (by decide),
   C5_getByID_invalid_doc_rejects.2 "2" (fun _ => some eduDocBadB) eduDocBadB
     (by decide) rfl (by decide)⟩

/-- C6: on a batch whose documents all have their mandatory fields non-empty,
`getAll` succeeds with a list of typed records of the same length, in store
order, whose field values equal the field values of the corresponding
documents. -/
theorem C6_getAll_valid_roundtrip :
    (∀ docs : List ExperienceDoc, (∀ d ∈ docs, expDocValid d = true) →
      ∃ rs : List ExperienceRecords,
        getAllExperienceRecords docs = .ok rs ∧
        rs.length = docs.length ∧
        ∀ (i : Nat) (hr : i < rs.length) (hd : i < docs.length),
          (rs.get ⟨i, hr⟩).id = (docs.get ⟨i, hd⟩).id ∧
          (rs.get ⟨i, hr⟩).startDate = (docs.get ⟨i, hd⟩).startDate ∧
          (rs.get ⟨i, hr⟩).endDate = (docs.get ⟨i, hd⟩).endDate ∧
          (rs.get ⟨i, hr⟩).description = (docs.get ⟨i, hd⟩).description ∧
          (rs.get ⟨i, hr⟩).skills = (docs.get ⟨i, hd⟩).skills ∧
          (rs.get ⟨i, hr⟩).companyName = (docs.get ⟨i, hd⟩).companyName ∧
          (rs.get ⟨i, hr⟩).title = (docs.get ⟨i, hd⟩).title ∧
          (rs.get ⟨i, hr⟩).location = (docs.get ⟨i, hd⟩).location) ∧
    (∀ docs : List EducationalDoc, (∀ d ∈ docs, eduDocValid d = true) →
      ∃ rs : List EducationalRecords,
        getAllEducationalRecords docs = .ok rs ∧
        rs.length = docs.length ∧
        ∀ (i : Nat) (hr : i < rs.length) (hd : i < docs.length),
          (rs.get ⟨i, hr⟩).id = (docs.get ⟨i, hd⟩).id ∧
          (rs.get ⟨i, hr⟩).startDate = (docs.get ⟨i, hd⟩).startDate ∧
          (rs.get ⟨i, hr⟩).endDate = (docs.get ⟨i, hd⟩).endDate ∧
          (rs.get ⟨i, hr⟩).description = (docs.get ⟨i, hd⟩).description ∧
          (rs.get ⟨i, hr⟩).skills = (docs.get ⟨i, hd⟩).skills ∧
          (rs.get ⟨i, hr⟩).name = (docs.get ⟨i, hd⟩).institutionName ∧
          (rs.get ⟨i, hr⟩).degree = (docs.get ⟨i, hd⟩).degree) := by
  constructor
  · intro docs h
    refine ⟨docs.map experienceRecordOfDoc,
      getAllExperienceRecords_ok docs h, by simp, ?_⟩
    intro i hr hd
    have hmap : (docs.map experienceRecordOfDoc).get ⟨i, hr⟩ =
        experienceRecordOfDoc (docs.get ⟨i, hd⟩) := by
      simp [List.get_eq_getElem]
    rw [hmap]
    simp [experienceRecordOfDoc]
  · intro docs h
    refine ⟨docs.map educationalRecordOfDoc,
      getAllEducationalRecords_ok docs h, by simp, ?_⟩
    intro i hr hd
    have hmap : (docs.map educationalRecordOfDoc).get ⟨i, hr⟩ =
        educationalRecordOfDoc (docs.get ⟨i, hd⟩) := by
      simp [List.get_eq_getElem]
    rw [hmap]
    simp [educationalRecordOfDoc]

/-- Witness for C6 at the two-document all-valid batches of the test suite. -/
theorem C6_witness :
    ((∀ d ∈ [expDocGood, expDocGoodB], expDocValid d = true) ∧
      ∃ rs : List ExperienceRecords,
        getAllExperienceRecords [expDocGood, expDocGoodB] = .ok rs ∧
        rs.length = ([expDocGood, expDocGoodB] : List ExperienceDoc).length ∧
        ∀ (i : Nat) (hr : i < rs.length)
          (hd : i < ([expDocGood, expDocGoodB] : List ExperienceDoc).length),
          (rs.get ⟨i, hr⟩).id =
            (([expDocGood, expDocGoodB] : List ExperienceDoc).get
              ⟨i, hd⟩).id ∧
          (rs.get ⟨i, hr⟩).startDate =
            (([expDocGood, expDocGoodB] : List ExperienceDoc).get
              ⟨i, hd⟩).startDate ∧
          (rs.get ⟨i, hr⟩).endDate =
            (([expDocGood, expDocGoodB] : List ExperienceDoc).get
              ⟨i, hd⟩).endDate ∧
          (rs.get ⟨i, hr⟩).description =
            (([expDocGood, expDocGoodB] : List ExperienceDoc).get
              ⟨i, hd⟩).description ∧
          (rs.get ⟨i, hr⟩).skills =
            (([expDocGood, expDocGoodB] : List ExperienceDoc).get
              ⟨i, hd⟩).skills ∧
          (rs.get ⟨i, hr⟩).companyName =
            (([expDocGood, expDocGoodB] : List ExperienceDoc).get
              ⟨i, hd⟩).companyName ∧
          (rs.get ⟨i, hr⟩).title =
            (([expDocGood, expDocGoodB] : List ExperienceDoc).get
              ⟨i, hd⟩).title ∧
          (rs.get ⟨i, hr⟩).location =
            (([expDocGood, expDocGoodB] : List ExperienceDoc).get
              ⟨i, hd⟩).location) ∧
    ((∀ d ∈ [eduDocGood, eduDocGoodB], eduDocValid d = true) ∧
      ∃ rs : List EducationalRecords,
        getAllEducationalRecords [eduDocGood, eduDocGoodB] = .ok rs ∧
        rs.length = ([eduDocGood, eduDocGoodB] : List EducationalDoc).length ∧
        ∀ (i : Nat) (hr : i < rs.length)
          (hd : i < ([eduDocGood, eduDocGoodB] : List EducationalDoc).length),
          (rs.get ⟨i, hr⟩).id =
            (([eduDocGood, eduDocGoodB] : List EducationalDoc).get
              ⟨i, hd⟩).id ∧
          (rs.get ⟨i, hr⟩).startDate =
            (([eduDocGood, eduDocGoodB] : List EducationalDoc).get
              ⟨i, hd⟩).startDate ∧
          (rs.get ⟨i, hr⟩).endDate =
            (([eduDocGood, eduDocGoodB] : List EducationalDoc).get
              ⟨i, hd⟩).endDate ∧
          (rs.get ⟨i, hr⟩).description =
            (([eduDocGood, eduDocGoodB] : List EducationalDoc).get
              ⟨i, hd⟩).description ∧
          (rs.get ⟨i, hr⟩).skills =
            (([eduDocGood, eduDocGoodB] : List EducationalDoc).get
              ⟨i, hd⟩).skills ∧
          (rs.get ⟨i, hr⟩).name =
            (([eduDocGood, eduDocGoodB] : List EducationalDoc).get
              ⟨i, hd⟩).institutionName ∧
          (rs.get ⟨i, hr⟩).degree =
            (([eduDocGood, eduDocGoodB] : List EducationalDoc).get
              ⟨i, hd⟩).degree) :=
  ⟨⟨by decide, C6_getAll_valid_roundtrip.1 [expDocGood, expDocGoodB]
      (by decide)⟩,
   ⟨by decide, C6_getAll_valid_roundtrip.2 [eduDocGood, eduDocGoodB]
      (by decide)⟩⟩

/-- The literal valid-parameter set of the route handler. -/
def routeValidParams : List String := ["name", "id"]

/-- The list of unrecognized keys collected by the handler, in parameter
order (duplicates included, as `forEach` visits every pair). -/
def routeInvalidParams (params : List (String × String)) : List String :=
  (params.map Prod.fst).filter (fun key => !(routeValidParams.contains key))

/-- Unfolding lemma: `projectsGET` first tests the collected invalid keys. -/
theorem projectsGET_eq (params : List (String × String)) :
    projectsGET params =
      if (routeInvalidParams params).length > 0 then
        .badRequest 400 (invalidQueryMessage (routeInvalidParams params))
          (routeInvalidParams params)
      else if jsTruthy (searchParamsGet params "name") then
        .byName ((searchParamsGet params "name").getD "")
      else if jsTruthy (searchParamsGet params "id") then
        .byID ((searchParamsGet params "id").getD "")
      else .allProjects := by
  simp [projectsGET, routeInvalidParams, routeValidParams]

/-- When every parameter key is recognized, the handler reduces to the
name-then-id dispatch. -/
theorem projectsGET_valid (params : List (String × String))
    (hok : ∀ kv ∈ params, kv.1 ∈ routeValidParams) :
    projectsGET params =
      if jsTruthy (searchParamsGet params "name") then
        .byName ((searchParamsGet params "name").getD "")
      else if jsTruthy (searchParamsGet params "id") then
        .byID ((searchParamsGet params "id").getD "")
      else .allProjects := by
  have hnil : routeInvalidParams params = [] := by
    rw [routeInvalidParams, List.filter_eq_nil_iff]
    intro k hk
    rcases List.mem_map.mp hk with ⟨kv, hkv, rfl⟩
    simpa using hok kv hkv
  rw [projectsGET_eq, hnil]
  rfl

/-- C7: a request with at least one unrecognized query parameter key gets a
400 response whose body message lists exactly the unrecognized keys: a key is
listed iff it occurs among the parameters and is not `name` or `id`. -/
theorem C7_unrecognized_params_400 (params : List (String × String))
    (h : ∃ kv ∈ params, kv.1 ∉ routeValidParams) :
    ∃ invalid : List String,
      projectsGET params =
        .badRequest 400 (invalidQueryMessage invalid) invalid ∧
      invalid ≠ [] ∧
      ∀ k, k ∈ invalid ↔ ((∃ kv ∈ params, kv.1 = k) ∧ k ∉ routeValidParams) := by
  refine ⟨routeInvalidParams params, ?_, ?_, ?_⟩
  · rcases h with ⟨kv, hkv, hbad⟩
    have hmem : kv.1 ∈ routeInvalidParams params := by
      rw [routeInvalidParams, List.mem_filter]
      exact ⟨List.mem_map.mpr ⟨kv, hkv, rfl⟩, by simpa using hbad⟩
    rw [projectsGET_eq, if_pos]
    exact List.length_pos.mpr (List.ne_nil_of_mem hmem)
  · rcases h with ⟨kv, hkv, hbad⟩
    apply List.ne_nil_of_mem (a := kv.1)
    rw [routeInvalidParams, List.mem_filter]
    exact ⟨List.mem_map.mpr ⟨kv, hkv, rfl⟩, by simpa using hbad⟩
  · intro k
    rw [routeInvalidParams, List.mem_filter, List.mem_map]
    simp

/-- Witness for C7 at a request carrying one unrecognized key `foo` next to a
recognized `name` key: the response is 400 and lists exactly `foo`. -/
theorem C7_witness :
    (∃ kv ∈ [("foo", "1"), ("name", "x")], kv.1 ∉ routeValidParams) ∧
    ∃ invalid : List String,
      projectsGET [("foo", "1"), ("name", "x")] =
        .badRequest 400 (invalidQueryMessage invalid) invalid ∧
      invalid ≠ [] ∧
      ∀ k, k ∈ invalid ↔
        ((∃ kv ∈ [("foo", "1"), ("name", "x")], kv.1 = k) ∧
          k ∉ routeValidParams) :=
  ⟨by decide,
   C7_unrecognized_params_400 [("foo", "1"), ("name", "x")] (by decide)⟩

/-- C8 as stated is false: with parameters `name=` (empty) and `id=7`, the
`name` parameter is supplied yet the handler dispatches to `getProjectByID`;
and with only the empty parameter `id=` supplied, it returns all projects
instead of dispatching to `getProjectByID`. -/
theorem C8_counterexample :
    projectsGET [("name", ""), ("id", "7")] = .byID "7" ∧
    projectsGET [("id", "")] = .allProjects :=
  ⟨rfl, rfl⟩

/-- C8 (amended): when every parameter key is recognized, a `name` parameter
supplied with a non-empty value wins (`getProjectByName`), even when `id` is
also supplied; otherwise a non-empty `id` is used (`getProjectByID`);
otherwise all projects are returned — a parameter whose first value is the
empty string counts as not supplied. -/
theorem C8_param_precedence (params : List (String × String))
    (hok : ∀ kv ∈ params, kv.1 ∈ routeValidParams) :
    (∀ n, searchParamsGet params "name" = some n → n ≠ "" →
      projectsGET params = .byName n) ∧
    (jsTruthy (searchParamsGet params "name") = false →
      ∀ i, searchParamsGet params "id" = some i → i ≠ "" →
        projectsGET params = .byID i) ∧
    (jsTruthy (searchParamsGet params "name") = false →
      jsTruthy (searchParamsGet params "id") = false →
      projectsGET params = .allProjects) := by
  refine ⟨?_, ?_, ?_⟩
  · intro n hn hne
    rw [projectsGET_valid params hok, hn]
    simp [jsTruthy, hne]
  · intro hname i hi hine
    rw [projectsGET_valid params hok, hname, hi]
    simp [jsTruthy, hine]
  · intro hname hid
    rw [projectsGET_valid params hok]
    simp [hname, hid]

/-- Witness for C8 at concrete requests: `name=x&id=7` dispatches by name,
`id=7` alone dispatches by id, and no parameters lists all projects. -/
theorem C8_witness :
    (∀ kv ∈ [("name", "x"), ("id", "7")], kv.1 ∈ routeValidParams) ∧
    projectsGET [("name", "x"), ("id", "7")] = .byName "x" ∧
    projectsGET [("id", "7")] = .byID "7" ∧
    projectsGET ([] : List (String × String)) = .allProjects :=
  ⟨by decide,
   (C8_param_precedence [("name", "x"), ("id", "7")] (by decide)).1 "x" rfl
     (by decide),
   (C8_param_precedence [("id", "7")] (by decide)).2.1 (by decide) "7" rfl
     (by decide),
   (C8_param_precedence [] (by decide)).2.2 (by decide) (by decide)⟩

/-- C9 as stated is false: the `EducationalRecords` class stores no location,
so two documents differing only in `location` construct equal records, and no
reader on the constructed instance can recover the location of the document. -/
theorem C9_counterexample :
    eduDocGood.location ≠ eduDocOtherLoc.location ∧
    educationalRecordOfDoc eduDocGood = educationalRecordOfDoc eduDocOtherLoc ∧
    ¬ ∃ f : EducationalRecords → String,
        ∀ d : EducationalDoc, f (educationalRecordOfDoc d) = d.location := by
  refine ⟨by decide, rfl, ?_⟩
  rintro ⟨f, hf⟩
  have h1 := hf eduDocGood
  have h2 := hf eduDocOtherLoc
  have heq : educationalRecordOfDoc eduDocGood =
      educationalRecordOfDoc eduDocOtherLoc := rfl
  rw [heq] at h1
  rw [h1] at h2
  exact absurd h2 (by decide)

/-- C9 (amended): every constructed `EducationalRecords` carries, in addition
to the base `Records` fields, the institution name (exposed under the
property `name`) and the degree, each readable on the constructed instance;
it carries no location. -/
theorem C9_educational_record_fields (id : String) (startDate endDate : Nat)
    (description : String) (skills : List Skills) (nm degree : String) :
    (EducationalRecords.mk
        ⟨id, startDate, endDate, description, skills⟩ nm degree).name = nm ∧
    (EducationalRecords.mk
        ⟨id, startDate, endDate, description, skills⟩ nm degree).degree =
      degree ∧
    (EducationalRecords.mk
        ⟨id, startDate, endDate, description, skills⟩ nm degree).id = id ∧
    (EducationalRecords.mk
        ⟨id, startDate, endDate, description, skills⟩ nm degree).startDate =
      startDate ∧
    (EducationalRecords.mk
        ⟨id, startDate, endDate, description, skills⟩ nm degree).endDate =
      endDate ∧
    (EducationalRecords.mk
        ⟨id, startDate, endDate, description, skills⟩ nm degree).description =
      description ∧
    (EducationalRecords.mk
        ⟨id, startDate, endDate, description, skills⟩ nm degree).skills =
      skills :=
  ⟨rfl, rfl, rfl, rfl, rfl, rfl, rfl⟩

/-- C10: a `name` parameter supplied as the empty string is treated as
absent — with all keys recognized, the handler falls through to `id` (a
non-empty `id` dispatches by id, otherwise all projects are returned) — and
`getProjectByName` is never invoked with an empty name on any request. -/
theorem C10_empty_name_falls_through (params : List (String × String))
    (hok : ∀ kv ∈ params, kv.1 ∈ routeValidParams)
    (hname : searchParamsGet params "name" = some "") :
    ((∀ i, searchParamsGet params "id" = some i → i ≠ "" →
        projectsGET params = .byID i) ∧
      (jsTruthy (searchParamsGet params "id") = false →
        projectsGET params = .allProjects)) ∧
    (∀ (qs : List (String × String)) (n : String),
      projectsGET qs = .byName n → n ≠ "") := by
  constructor
  · have hfalse : jsTruthy (searchParamsGet params "name") = false := by
      rw [hname]; rfl
    constructor
    · intro i hi hine
      rw [projectsGET_valid params hok, hfalse, hi]
      simp [jsTruthy, hine]
    · intro hid
      rw [projectsGET_valid params hok]
      simp [hfalse, hid]
  · intro qs n h
    rw [projectsGET_eq] at h
    by_cases hinv : (routeInvalidParams qs).length > 0
    · rw [if_pos hinv] at h
      cases h
    · rw [if_neg hinv] at h
      by_cases hn : jsTruthy (searchParamsGet qs "name") = true
      · rw [if_pos hn] at h
        cases h
        cases hopt : searchParamsGet qs "name" with
        | none => rw [hopt] at hn; cases hn
        | some s =>
          rw [hopt] at hn
          simpa [jsTruthy, hopt] using hn
      · rw [if_neg hn] at h
        by_cases hi : jsTruthy (searchParamsGet qs "id") = true
        · rw [if_pos hi] at h; cases h
        · rw [if_neg hi] at h; cases h

/-- Witness for C10 at the requests `name=&id=7` (dispatches by id) and
`name=` alone (lists all projects). -/
theorem C10_witness :
    (∀ kv ∈ [("name", ""), ("id", "7")], kv.1 ∈ routeValidParams) ∧
    searchParamsGet [("name", ""), ("id", "7")] "name" = some "" ∧
    projectsGET [("name", ""), ("id", "7")] = .byID "7" ∧
    projectsGET [("name", "")] = .allProjects :=
  ⟨by decide, rfl,
   ((C10_empty_name_falls_through [("name", ""), ("id", "7")] (by decide)
      rfl).1).1 "7" rfl (by decide),
   ((C10_empty_name_falls_through [("name", "")] (by decide)
      rfl).1).2 (by decide)⟩

end DevTrail
